import Mathlib

/-!
Shallow embedding of the reconcile_bq_data query-handler core
(src/reconcilebqdata/queryhandler.py and src/reconcilebqdata/aux.py).

Python exceptions are modelled with `Except`.  Mutating methods return
`Except (PyError × QueryHandler) QueryHandler`: a raised exception carries the
handler state as it is at the raise point, so frame conditions ("prior state
is preserved") are real statements about the embedding rather than artifacts.
Backend execution (`execute_query`) is an external effect and is passed in as
an oracle value.  SQLAlchemy `Select` objects are opaque to the handler; each
of the five query-builder methods is embedded as a distinct constructor
carrying the id range it was built from, which is exactly the data the
builders take from handler state.
-/

namespace ReconcileBQData

/-- Exceptions raised by the embedded code: `valueError` models Python
`ValueError` (the spec calls these `ValidationError`), `executionError` models
an exception propagating out of backend query execution (the spec calls these
`QueryExecutionError`). -/
inductive PyError where
  | valueError (msg : String)
  | executionError (msg : String)
deriving DecidableEq, Repr

/-- The closed category set, from queryhandler.py line 16:
QUERY_CATEGORIES = ("mysql_trips", "mysql_open", "mysql_cnx", "bigquery_trips"). -/
def QUERY_CATEGORIES : List String :=
  ["mysql_trips", "mysql_open", "mysql_cnx", "bigquery_trips"]

/-- Backend connection handles produced by dbtools.get_engine_mysql and
dbtools.get_engine_bigquery; the two point at the two distinct backends. -/
inductive Engine where
  | mysql
  | bigquery
deriving DecidableEq, Repr

/-- dbtools.get_engine_mysql: returns the MySQL engine. -/
def get_engine_mysql : Engine := Engine.mysql

/-- dbtools.get_engine_bigquery: returns the BigQuery engine. -/
def get_engine_bigquery : Engine := Engine.bigquery

/-- Opaque query plan: one constructor per query-builder method of
QueryHandler, each carrying the id range read from handler state when the
builder ran. -/
inductive Select where
  | mysqlTrips (id_range : Int × Int)
  | mysqlOpen (id_range : Int × Int)
  | mysqlCnx (id_range : Int × Int)
  | bigqueryTrips (id_range : Int × Int)
  | bigqueryCnx (id_range : Int × Int)
deriving DecidableEq, Repr

/-- Handler state: the five private attributes plus the four public result
attributes set by init_result/update. -/
structure QueryHandler where
  query_category : String
  id_range : Int × Int
  engine : Engine
  query : Select
  result : Option (List (Int × String))
  result_count_ids : Option Nat
  result_count_booking_codes : Option Nat
  updated_at : Option String
deriving DecidableEq, Repr

/-- Python str.startswith, as character-list matching. -/
def pyStartsWith (s p : String) : Bool :=
  List.isPrefixOf p.data s.data

/-- QueryHandler.get_engine: dispatch on the category's backend namespace
(the two string-prefix tests), else ValueError. -/
def QueryHandler.get_engine (query_category : String) : Except PyError Engine :=
  if pyStartsWith query_category "mysql_" then Except.ok get_engine_mysql
  else if pyStartsWith query_category "bigquery_" then Except.ok get_engine_bigquery
  else Except.error (PyError.valueError
    "query_category should be prefixed by mysql_ or bigquery_")

/-- QueryHandler.get_query: the if/elif chain dispatching to the five query
builders, else ValueError.  Each builder reads self.id_range. -/
def QueryHandler.get_query (query_category : String) (id_range : Int × Int) :
    Except PyError Select :=
  if query_category = "mysql_trips" then Except.ok (Select.mysqlTrips id_range)
  else if query_category = "mysql_open" then Except.ok (Select.mysqlOpen id_range)
  else if query_category = "mysql_cnx" then Except.ok (Select.mysqlCnx id_range)
  else if query_category = "bigquery_trips" then Except.ok (Select.bigqueryTrips id_range)
  else if query_category = "bigquery_cnx" then Except.ok (Select.bigqueryCnx id_range)
  else Except.error (PyError.valueError
    ("Query category " ++ query_category ++ " is not valid."))

/-- QueryHandler.__init__: stores category and range unvalidated, clears the
result attributes, then derives engine and query (each of which may raise). -/
def QueryHandler.init (query_category : String) (id_range : Int × Int) :
    Except PyError QueryHandler :=
  match QueryHandler.get_engine query_category with
  | Except.error e => Except.error e
  | Except.ok engine =>
    match QueryHandler.get_query query_category id_range with
    | Except.error e => Except.error e
    | Except.ok query =>
      Except.ok
        { query_category := query_category
          id_range := id_range
          engine := engine
          query := query
          result := none
          result_count_ids := none
          result_count_booking_codes := none
          updated_at := none }

/-- QueryHandler.init_result: sets result, result_count_ids,
result_count_booking_codes and updated_at to None. -/
def QueryHandler.init_result (h : QueryHandler) : QueryHandler :=
  { h with
    result := none
    result_count_ids := none
    result_count_booking_codes := none
    updated_at := none }

/-- Membership of a key among the keys of an association list, as Python
`key in dict` over the dict the handler builds. -/
def dictKeysContain (d : List (Int × String)) (key : Int) : Bool :=
  d.any (fun p => p.1 == key)

/-- One step of Python dict construction: an existing key keeps its position
and gets the new value; a fresh key is appended at the end. -/
def dictInsert (d : List (Int × String)) (key : Int) (val : String) :
    List (Int × String) :=
  if dictKeysContain d key then
    d.map (fun p => if p.1 == key then (key, val) else p)
  else d ++ [(key, val)]

/-- Python dict(rows) on an ordered sequence of (id, code) rows: insertion
order with overwriting on duplicate keys.  This is what
QueryResult(execute_query(...)) computes in QueryHandler.update. -/
def dictOfRows (rows : List (Int × String)) : List (Int × String) :=
  rows.foldl (fun d row => dictInsert d row.1 row.2) []

/-- Python dict lookup on the embedded association list. -/
def dictLookup (d : List (Int × String)) (key : Int) : Option String :=
  (d.find? (fun p => p.1 == key)).map Prod.snd

/-- Specification-side description of the last-write-wins reduction: the value
associated to a key is the code of the last row carrying that key, if any. -/
def lastValueFor (rows : List (Int × String)) (key : Int) : Option String :=
  (rows.reverse.find? (fun p => p.1 == key)).map Prod.snd

/-- QueryHandler.update: takes the timestamp first, then executes the stored
query against the stored engine (the oracle argument `execResult`); only after
a successful execution does it assign result, the two counts and updated_at.
On execution failure the exception propagates with handler state exactly as it
was at entry (no assignment precedes the execute_query call). -/
def QueryHandler.update (h : QueryHandler) (now : String)
    (execResult : Except PyError (List (Int × String))) :
    Except (PyError × QueryHandler) QueryHandler :=
  match execResult with
  | Except.error e => Except.error (e, h)
  | Except.ok rows =>
    let result := dictOfRows rows
    Except.ok
      { h with
        result := some result
        result_count_ids := some result.length
        result_count_booking_codes := some (result.map Prod.snd).dedup.length
        updated_at := some now }

/-- QueryHandler.query_category setter: membership in QUERY_CATEGORIES is
checked first (else ValueError with the state untouched); a genuinely new
category clears the result attributes and stores the new category, while an
equal category is a complete no-op.  Neither branch touches engine or query. -/
def QueryHandler.set_query_category (h : QueryHandler) (new_query_category : String) :
    Except (PyError × QueryHandler) QueryHandler :=
  if new_query_category ∉ QUERY_CATEGORIES then
    Except.error
      (PyError.valueError ("Category should be in " ++ toString QUERY_CATEGORIES), h)
  else if h.query_category ≠ new_query_category then
    Except.ok { h.init_result with query_category := new_query_category }
  else
    Except.ok h

/-- QueryHandler.id_range setter: on 0 < id_min < id_max the new range is
stored and the result attributes are cleared (even when the new range equals
the old one); otherwise ValueError with the state untouched.  The stored query
and engine are not touched. -/
def QueryHandler.set_id_range (h : QueryHandler) (new_range : Int × Int) :
    Except (PyError × QueryHandler) QueryHandler :=
  if 0 < new_range.1 ∧ new_range.1 < new_range.2 then
    Except.ok ({ h with id_range := new_range }).init_result
  else
    Except.error (PyError.valueError "Input (a,b) should satisfy 0 < a < b", h)

/-- A calendar date as Python datetime.date, compared lexicographically. -/
structure PyDate where
  year : Nat
  month : Nat
  day : Nat
deriving DecidableEq, Repr

/-- Strict comparison of Python dates (year, then month, then day). -/
def PyDate.lt (a b : PyDate) : Bool :=
  decide (a.year < b.year) ||
    (decide (a.year = b.year) &&
      (decide (a.month < b.month) ||
        (decide (a.month = b.month) && decide (a.day < b.day))))

/-- get_bq_trip_id_range from queryhandler.py: raises ValueError when
date_min >= date_max; only past that check does it build the BigQuery engine,
load table metadata and execute the min/max query.  The oracle `backend_row`
is the first row of that execution (the pair of aggregates, each nullable);
the returned Bool records whether the backend was contacted. -/
def get_bq_trip_id_range (date_min date_max : PyDate)
    (backend_row : Except PyError (Option Int × Option Int)) :
    Except PyError (Option Int × Option Int) × Bool :=
  if PyDate.lt date_min date_max = false then
    (Except.error (PyError.valueError "Invalid date range"), false)
  else
    (backend_row, true)

/-- A Python datetime value: calendar fields, microsecond, and whether the
UTC tzinfo is attached (`tzIsUtc = false` models a naive datetime). -/
structure PyDateTime where
  year : Nat
  month : Nat
  day : Nat
  hour : Nat
  minute : Nat
  second : Nat
  microsecond : Nat
  tzIsUtc : Bool
deriving DecidableEq, Repr

/-- Left-pad a numeral with zeros to the given width. -/
def padZero (width n : Nat) : String :=
  let s := toString n
  if s.length < width then String.mk (List.replicate (width - s.length) '0') ++ s
  else s

/-- datetime.replace(microsecond=0, tzinfo=timezone.utc): zeroes the
microsecond field and attaches the UTC label, without converting the clock
reading. -/
def PyDateTime.replaceMicroUtc (d : PyDateTime) : PyDateTime :=
  { d with microsecond := 0, tzIsUtc := true }

/-- datetime.isoformat(): YYYY-MM-DDTHH:MM:SS, with a fractional part only
when the microsecond field is nonzero and the +00:00 suffix only when the UTC
tzinfo is attached. -/
def PyDateTime.isoformat (d : PyDateTime) : String :=
  padZero 4 d.year ++ "-" ++ padZero 2 d.month ++ "-" ++ padZero 2 d.day ++ "T"
    ++ padZero 2 d.hour ++ ":" ++ padZero 2 d.minute ++ ":" ++ padZero 2 d.second
    ++ (if d.microsecond ≠ 0 then "." ++ padZero 6 d.microsecond else "")
    ++ (if d.tzIsUtc then "+00:00" else "")

/-- get_current_timestamp from aux.py: datetime.now() yields the local
wall-clock reading as a naive datetime (the `datetime_now` argument); the code
then zeroes microseconds, attaches the UTC label and formats.  No conversion
between the local clock and UTC ever happens. -/
def get_current_timestamp (datetime_now : PyDateTime) : String :=
  (datetime_now.replaceMicroUtc).isoformat

/-- Boolean success test for the embedded Except values. -/
def isOkE {ε α : Type} : Except ε α → Bool
  | Except.ok _ => true
  | Except.error _ => false

/-- Handler states reachable through the public API: construction, the two
setters, and a successful update (a failed update raises and produces no new
state). -/
inductive Reaches : QueryHandler → Prop where
  | init (cat : String) (r : Int × Int) (h : QueryHandler)
      (hEq : QueryHandler.init cat r = Except.ok h) : Reaches h
  | set_cat (h : QueryHandler) (new : String) (h' : QueryHandler)
      (hr : Reaches h)
      (hEq : QueryHandler.set_query_category h new = Except.ok h') : Reaches h'
  | set_range (h : QueryHandler) (new : Int × Int) (h' : QueryHandler)
      (hr : Reaches h)
      (hEq : QueryHandler.set_id_range h new = Except.ok h') : Reaches h'
  | update (h : QueryHandler) (now : String) (rows : List (Int × String))
      (h' : QueryHandler) (hr : Reaches h)
      (hEq : QueryHandler.update h now (Except.ok rows) = Except.ok h') : Reaches h'

/-- A handler as QueryHandler.init("mysql_trips", (100, 200)) builds it. -/
def tripsHandler100 : QueryHandler :=
  { query_category := "mysql_trips"
    id_range := (100, 200)
    engine := Engine.mysql
    query := Select.mysqlTrips (100, 200)
    result := none
    result_count_ids := none
    result_count_booking_codes := none
    updated_at := none }

/-- The same handler after a successful update on the three scenario rows. -/
def populatedHandler : QueryHandler :=
  { query_category := "mysql_trips"
    id_range := (100, 200)
    engine := Engine.mysql
    query := Select.mysqlTrips (100, 200)
    result := some [(101, "AB1"), (150, "AB1"), (199, "CD2")]
    result_count_ids := some 3
    result_count_booking_codes := some 2
    updated_at := some "2024-01-01T10:00:00+00:00" }

/-- Success of get_query does not depend on the id range argument. -/
theorem get_query_isOk_range_free (cat : String) (r r' : Int × Int) :
    isOkE (QueryHandler.get_query cat r) = isOkE (QueryHandler.get_query cat r') := by
  unfold QueryHandler.get_query
  split_ifs <;> rfl

/-- Success of construction does not depend on the id range argument. -/
theorem init_isOk_range_free (cat : String) (r r' : Int × Int) :
    isOkE (QueryHandler.init cat r) = isOkE (QueryHandler.init cat r') := by
  unfold QueryHandler.init
  cases hE : QueryHandler.get_engine cat with
  | error e => rfl
  | ok eng =>
    have hq := get_query_isOk_range_free cat r r'
    cases h1 : QueryHandler.get_query cat r with
    | error e =>
      cases h2 : QueryHandler.get_query cat r' with
      | error e' => rfl
      | ok q' => rw [h1, h2] at hq; simp [isOkE] at hq
    | ok q =>
      cases h2 : QueryHandler.get_query cat r' with
      | error e' => rw [h1, h2] at hq; simp [isOkE] at hq
      | ok q' => rfl

/-- C1 (counterexample): the pair (0, 5) violates 0 < low < high, yet
constructing a QueryHandler with it and a valid category succeeds — the
constructor performs no range validation, so the claim that such a
construction raises ValidationError is false. -/
theorem construction_accepts_invalid_range :
    ¬(0 < (0 : Int) ∧ (0 : Int) < (5 : Int))
    ∧ QueryHandler.init "mysql_trips" ((0 : Int), (5 : Int))
        = Except.ok
            { query_category := "mysql_trips"
              id_range := (0, 5)
              engine := Engine.mysql
              query := Select.mysqlTrips (0, 5)
              result := none
              result_count_ids := none
              result_count_booking_codes := none
              updated_at := none } :=
  ⟨by decide, rfl⟩

/-- C1 (amended): construction succeeds or fails independently of the range
(in particular, with the valid category "mysql_trips" every range is
accepted, valid or not), while the id-range mutation raises ValueError on any
pair violating 0 < low < high, leaving the handler state untouched. -/
theorem construction_skips_range_validation (cat : String) (r r' bad : Int × Int)
    (h : QueryHandler) (hbad : ¬(0 < bad.1 ∧ bad.1 < bad.2)) :
    isOkE (QueryHandler.init cat r) = isOkE (QueryHandler.init cat r')
    ∧ isOkE (QueryHandler.init "mysql_trips" r) = true
    ∧ QueryHandler.set_id_range h bad
        = Except.error (PyError.valueError "Input (a,b) should satisfy 0 < a < b", h) := by
  refine ⟨init_isOk_range_free cat r r', rfl, ?_⟩
  unfold QueryHandler.set_id_range
  rw [if_neg hbad]

/-- Witness for C1: the amended statement instantiated at the invalid range
(0, 5) for construction and at the invalid pair (5, 5) for mutation. -/
theorem construction_skips_range_validation_witness :
    isOkE (QueryHandler.init "mysql_trips" ((0 : Int), 5))
      = isOkE (QueryHandler.init "mysql_trips" ((1 : Int), 2))
    ∧ isOkE (QueryHandler.init "mysql_trips" ((0 : Int), 5)) = true
    ∧ QueryHandler.set_id_range populatedHandler ((5 : Int), 5)
        = Except.error
            (PyError.valueError "Input (a,b) should satisfy 0 < a < b", populatedHandler) :=
  construction_skips_range_validation "mysql_trips" (0, 5) (1, 2) (5, 5)
    populatedHandler (by decide)

/-- C2 (code bug): after a successful category change from "mysql_trips" to
"bigquery_trips", the stored engine is still the MySQL engine (get_engine
would now resolve BigQuery) and the stored query is still the mysql_trips
plan over the old range (get_query would now build the bigquery_trips plan);
likewise a successful range change to (3, 4) leaves the stored query built
from the old range (1, 2).  The setters never re-derive engine or query. -/
theorem stale_engine_and_query_after_mutation :
    ∃ h h1 h2,
      QueryHandler.init "mysql_trips" ((1 : Int), 2) = Except.ok h
      ∧ QueryHandler.set_query_category h "bigquery_trips" = Except.ok h1
      ∧ h1.engine = get_engine_mysql
      ∧ QueryHandler.get_engine "bigquery_trips" = Except.ok get_engine_bigquery
      ∧ get_engine_mysql ≠ get_engine_bigquery
      ∧ h1.query = Select.mysqlTrips (1, 2)
      ∧ QueryHandler.get_query "bigquery_trips" h1.id_range
          = Except.ok (Select.bigqueryTrips (1, 2))
      ∧ QueryHandler.set_id_range h ((3 : Int), 4) = Except.ok h2
      ∧ h2.id_range = (3, 4)
      ∧ h2.query = Select.mysqlTrips (1, 2) := by
  refine ⟨{ query_category := "mysql_trips", id_range := (1, 2), engine := Engine.mysql,
            query := Select.mysqlTrips (1, 2), result := none, result_count_ids := none,
            result_count_booking_codes := none, updated_at := none },
          { query_category := "bigquery_trips", id_range := (1, 2), engine := Engine.mysql,
            query := Select.mysqlTrips (1, 2), result := none, result_count_ids := none,
            result_count_booking_codes := none, updated_at := none },
          { query_category := "mysql_trips", id_range := (3, 4), engine := Engine.mysql,
            query := Select.mysqlTrips (1, 2), result := none, result_count_ids := none,
            result_count_booking_codes := none, updated_at := none },
          rfl, rfl, rfl, rfl, ?_, rfl, rfl, rfl, rfl, rfl⟩
  decide

/-- C3 (counterexample): "bigquery_cnx" is outside the closed category set
QUERY_CATEGORIES, yet constructing a QueryHandler with it succeeds: the
constructor dispatches through get_engine/get_query, which both accept it. -/
theorem construction_accepts_bigquery_cnx :
    "bigquery_cnx" ∉ QUERY_CATEGORIES
    ∧ QueryHandler.init "bigquery_cnx" ((1 : Int), 2)
        = Except.ok
            { query_category := "bigquery_cnx"
              id_range := (1, 2)
              engine := Engine.bigquery
              query := Select.bigqueryCnx (1, 2)
              result := none
              result_count_ids := none
              result_count_booking_codes := none
              updated_at := none } :=
  ⟨by decide, rfl⟩

/-- C3 (amended): the category mutation rejects every value outside
QUERY_CATEGORIES with ValueError and an untouched state; construction rejects
every value outside QUERY_CATEGORIES other than "bigquery_cnx", which it
accepts despite it being outside the closed set. -/
theorem unknown_category_rejected (cat : String) (r : Int × Int) (h : QueryHandler)
    (hout : cat ∉ QUERY_CATEGORIES) :
    (cat ≠ "bigquery_cnx" → isOkE (QueryHandler.init cat r) = false)
    ∧ QueryHandler.set_query_category h cat
        = Except.error
            (PyError.valueError ("Category should be in " ++ toString QUERY_CATEGORIES), h) := by
  constructor
  · intro hcnx
    simp only [QUERY_CATEGORIES, List.mem_cons, List.not_mem_nil, or_false] at hout
    push_neg at hout
    obtain ⟨h1, h2, h3, h4⟩ := hout
    have hq : QueryHandler.get_query cat r
        = Except.error (PyError.valueError
            ("Query category " ++ cat ++ " is not valid.")) := by
      unfold QueryHandler.get_query
      rw [if_neg h1, if_neg h2, if_neg h3, if_neg h4, if_neg hcnx]
    unfold QueryHandler.init
    rw [hq]
    cases hE : QueryHandler.get_engine cat with
    | error e => rfl
    | ok eng => rfl
  · unfold QueryHandler.set_query_category
    rw [if_pos hout]

/-- Witness for C3: the amended statement instantiated at category "foo_bar",
which is rejected by both construction and mutation. -/
theorem unknown_category_rejected_witness :
    ("foo_bar" ≠ "bigquery_cnx" → isOkE (QueryHandler.init "foo_bar" ((1 : Int), 2)) = false)
    ∧ QueryHandler.set_query_category populatedHandler "foo_bar"
        = Except.error
            (PyError.valueError ("Category should be in " ++ toString QUERY_CATEGORIES),
             populatedHandler) :=
  unknown_category_rejected "foo_bar" (1, 2) populatedHandler (by decide)

/-- C4: when query execution fails inside update, the exception propagates and
the handler's result mapping, both counts and the updated-at timestamp are
exactly as they were before the call: no assignment precedes the execution. -/
theorem update_failure_preserves_state (h : QueryHandler) (now : String) (e : PyError) :
    ∃ h', QueryHandler.update h now (Except.error e) = Except.error (e, h')
      ∧ h'.result = h.result
      ∧ h'.result_count_ids = h.result_count_ids
      ∧ h'.result_count_booking_codes = h.result_count_booking_codes
      ∧ h'.updated_at = h.updated_at :=
  ⟨h, rfl, rfl, rfl, rfl, rfl⟩

/-- C6: a successful category change to a genuinely different category and a
successful range change both leave result, result_count_ids,
result_count_booking_codes and updated_at unset; no query execution is part of
either setter (only update executes queries). -/
theorem mutators_clear_results (h : QueryHandler) (new_cat : String)
    (new_range : Int × Int) (hc hr : QueryHandler)
    (hne : new_cat ≠ h.query_category)
    (hcat : QueryHandler.set_query_category h new_cat = Except.ok hc)
    (hrange : QueryHandler.set_id_range h new_range = Except.ok hr) :
    hc.result = none ∧ hc.result_count_ids = none
    ∧ hc.result_count_booking_codes = none ∧ hc.updated_at = none
    ∧ hr.result = none ∧ hr.result_count_ids = none
    ∧ hr.result_count_booking_codes = none ∧ hr.updated_at = none := by
  unfold QueryHandler.set_query_category at hcat
  unfold QueryHandler.set_id_range at hrange
  by_cases hmem : new_cat ∉ QUERY_CATEGORIES
  · rw [if_pos hmem] at hcat
    exact Except.noConfusion hcat
  · rw [if_neg hmem, if_pos (fun k => hne k.symm)] at hcat
    by_cases hok : 0 < new_range.1 ∧ new_range.1 < new_range.2
    · rw [if_pos hok] at hrange
      have e1 := Except.ok.inj hcat
      have e2 := Except.ok.inj hrange
      subst e1
      subst e2
      exact ⟨rfl, rfl, rfl, rfl, rfl, rfl, rfl, rfl⟩
    · rw [if_neg hok] at hrange
      exact Except.noConfusion hrange

/-- Witness for C6: from the populated handler, changing the category to
"mysql_open" and the range to (5, 6) both yield fully-cleared states. -/
theorem mutators_clear_results_witness :
    ({ populatedHandler.init_result with query_category := "mysql_open" }).result = none
    ∧ ({ populatedHandler.init_result with query_category := "mysql_open" }).result_count_ids = none
    ∧ ({ populatedHandler.init_result with
          query_category := "mysql_open" }).result_count_booking_codes = none
    ∧ ({ populatedHandler.init_result with query_category := "mysql_open" }).updated_at = none
    ∧ ({ populatedHandler with id_range := ((5 : Int), 6) }).init_result.result = none
    ∧ ({ populatedHandler with id_range := ((5 : Int), 6) }).init_result.result_count_ids = none
    ∧ ({ populatedHandler with
          id_range := ((5 : Int), 6) }).init_result.result_count_booking_codes = none
    ∧ ({ populatedHandler with id_range := ((5 : Int), 6) }).init_result.updated_at = none := by
  exact mutators_clear_results populatedHandler "mysql_open" (5, 6) _ _ (by decide) rfl rfl

/-- C8 (code bug): on a machine whose local clock reads 2024-01-01
12:00:00.500000 while true UTC time is 2024-01-01 10:00:00.500000 (a UTC+02:00
zone), get_current_timestamp stamps the local reading relabelled as UTC,
which differs from the ISO form of the actual UTC instant truncated to whole
seconds.  Truncation and formatting behave as claimed; the UTC part does not:
datetime.now() reads the local clock and replace(tzinfo=utc) does not convert. -/
theorem timestamp_is_local_time_labelled_utc :
    get_current_timestamp
        { year := 2024, month := 1, day := 1, hour := 12, minute := 0, second := 0,
          microsecond := 500000, tzIsUtc := false }
      = "2024-01-01T12:00:00+00:00"
    ∧ PyDateTime.isoformat
        (PyDateTime.replaceMicroUtc
          { year := 2024, month := 1, day := 1, hour := 10, minute := 0, second := 0,
            microsecond := 500000, tzIsUtc := false })
      = "2024-01-01T10:00:00+00:00"
    ∧ ("2024-01-01T12:00:00+00:00" : String) ≠ "2024-01-01T10:00:00+00:00" :=
  ⟨rfl, rfl, by decide⟩

/-- C9: whenever date_min >= date_max, the date-to-id-range helper returns the
"Invalid date range" ValueError and the backend-contacted flag is false,
whatever the backend would have answered. -/
theorem invalid_date_range_rejected_before_backend (dmin dmax : PyDate)
    (backend_row : Except PyError (Option Int × Option Int))
    (hge : PyDate.lt dmin dmax = false) :
    get_bq_trip_id_range dmin dmax backend_row
      = (Except.error (PyError.valueError "Invalid date range"), false) := by
  unfold get_bq_trip_id_range
  rw [if_pos hge]

/-- Witness for C9: equal dates 2024-01-01 and 2024-01-01 are rejected before
any backend contact. -/
theorem invalid_date_range_rejected_before_backend_witness :
    get_bq_trip_id_range ⟨2024, 1, 1⟩ ⟨2024, 1, 1⟩ (Except.ok (some 1, some 2))
      = (Except.error (PyError.valueError "Invalid date range"), false) :=
  invalid_date_range_rejected_before_backend ⟨2024, 1, 1⟩ ⟨2024, 1, 1⟩
    (Except.ok (some 1, some 2)) (by decide)

/-- C10: re-assigning the current id range (valid per 0 < low < high) clears
result, counts and timestamp, while re-assigning the current category (a
member of the closed set) leaves the handler — result fields included —
completely untouched: the two mutators are not symmetric on no-op inputs. -/
theorem setter_noop_asymmetry (h : QueryHandler)
    (hmem : h.query_category ∈ QUERY_CATEGORIES)
    (hlo : 0 < h.id_range.1) (hhi : h.id_range.1 < h.id_range.2) :
    QueryHandler.set_id_range h h.id_range
      = Except.ok
          { h with
            result := none
            result_count_ids := none
            result_count_booking_codes := none
            updated_at := none }
    ∧ QueryHandler.set_query_category h h.query_category = Except.ok h := by
  constructor
  · unfold QueryHandler.set_id_range
    rw [if_pos ⟨hlo, hhi⟩]
    rfl
  · unfold QueryHandler.set_query_category
    rw [if_neg (not_not_intro hmem), if_neg (not_not_intro rfl)]

/-- Witness for C10: on the populated handler, re-assigning the range (100,
200) clears the result fields while re-assigning the category "mysql_trips"
returns the handler with its populated result intact. -/
theorem setter_noop_asymmetry_witness :
    QueryHandler.set_id_range populatedHandler ((100 : Int), 200)
      = Except.ok
          { populatedHandler with
            result := none
            result_count_ids := none
            result_count_booking_codes := none
            updated_at := none }
    ∧ QueryHandler.set_query_category populatedHandler "mysql_trips"
        = Except.ok populatedHandler :=
  setter_noop_asymmetry populatedHandler (by decide) (by decide) (by decide)

/-- find? over an appended list checks the left part first. -/
theorem find_append_or {α : Type} (p : α → Bool) (l1 l2 : List α) :
    (l1 ++ l2).find? p = ((l1.find? p).orElse fun _ => l2.find? p) := by
  induction l1 with
  | nil => rfl
  | cons a t ih =>
    cases hp : p a with
    | true => simp [List.find?, hp, Option.orElse]
    | false => simp [List.find?, hp, Option.orElse, ih]

/-- Replacing the value at one key does not move or change any key. -/
theorem find_map_replace_ne (d : List (Int × String)) (k key : Int) (v : String)
    (hne : key ≠ k) :
    (d.map (fun p => if p.1 == k then (k, v) else p)).find? (fun p => p.1 == key)
      = d.find? (fun p => p.1 == key) := by
  induction d with
  | nil => rfl
  | cons p t ih =>
    rw [List.map_cons]
    by_cases hpk : p.1 = k
    · rw [show (if p.1 == k then (k, v) else p) = (k, v) from if_pos (beq_iff_eq.mpr hpk)]
      have h1 : (k == key) = false := beq_eq_false_iff_ne.mpr fun e => hne e.symm
      have h2 : (p.1 == key) = false := by rw [hpk]; exact h1
      simp only [List.find?, h1, h2, ih]
    · rw [show (if p.1 == k then (k, v) else p) = p from if_neg (by simpa using hpk)]
      cases hpkey : (p.1 == key) with
      | true => simp only [List.find?, hpkey]
      | false => simp only [List.find?, hpkey, ih]

/-- When a key is already present, replacement makes its first occurrence
hold the new value. -/
theorem find_map_replace_self (d : List (Int × String)) (k : Int) (v : String)
    (hc : dictKeysContain d k = true) :
    (d.map (fun p => if p.1 == k then (k, v) else p)).find? (fun p => p.1 == k)
      = some (k, v) := by
  induction d with
  | nil => simp [dictKeysContain] at hc
  | cons p t ih =>
    rw [List.map_cons]
    by_cases hpk : p.1 = k
    · rw [show (if p.1 == k then (k, v) else p) = (k, v) from if_pos (beq_iff_eq.mpr hpk)]
      simp only [List.find?, beq_self_eq_true]
    · have hct : dictKeysContain t k = true := by
        simp only [dictKeysContain, List.any_cons, Bool.or_eq_true, beq_iff_eq] at hc
        rcases hc with hcl | hcr
        · exact absurd hcl hpk
        · exact hcr
      rw [show (if p.1 == k then (k, v) else p) = p from if_neg (by simpa using hpk)]
      have hfalse : (p.1 == k) = false := beq_eq_false_iff_ne.mpr hpk
      simp only [List.find?, hfalse, ih hct]

/-- dictInsert makes the inserted key map to the inserted value. -/
theorem dictLookup_insert_self (d : List (Int × String)) (k : Int) (v : String) :
    dictLookup (dictInsert d k v) k = some v := by
  unfold dictInsert
  by_cases hc : dictKeysContain d k
  · rw [if_pos hc]
    unfold dictLookup
    rw [find_map_replace_self d k v hc]
    rfl
  · rw [if_neg hc]
    unfold dictLookup
    rw [find_append_or]
    have hnone : d.find? (fun p => p.1 == k) = none := by
      rw [List.find?_eq_none]
      intro p hp
      simp only [dictKeysContain, List.any_eq_true, beq_iff_eq, not_exists, not_and,
        Bool.not_eq_true] at hc
      simpa using hc p hp
    rw [hnone]
    simp [List.find?, Option.orElse]

/-- dictInsert leaves lookups at every other key unchanged. -/
theorem dictLookup_insert_ne (d : List (Int × String)) (k key : Int) (v : String)
    (hne : key ≠ k) :
    dictLookup (dictInsert d k v) key = dictLookup d key := by
  unfold dictInsert
  by_cases hc : dictKeysContain d k
  · rw [if_pos hc]
    unfold dictLookup
    rw [find_map_replace_ne d k key v hne]
  · rw [if_neg hc]
    unfold dictLookup
    rw [find_append_or]
    have h1 : ([(k, v)].find? (fun p => p.1 == key)) = none := by
      have hkk : (k == key) = false := by
        simp only [beq_eq_false_iff_ne]
        exact fun e => hne e.symm
      simp [List.find?, hkk]
    rw [h1]
    cases d.find? (fun p => p.1 == key) <;> rfl

/-- Lookup after folding dictInsert over rows: the last row with the key wins,
falling back to the initial dictionary. -/
theorem dictLookup_foldl (rows : List (Int × String)) (key : Int) :
    ∀ d, dictLookup (List.foldl (fun acc row => dictInsert acc row.1 row.2) d rows) key
      = ((lastValueFor rows key).orElse fun _ => dictLookup d key) := by
  induction rows with
  | nil =>
    intro d
    rfl
  | cons r t ih =>
    intro d
    rw [List.foldl_cons, ih]
    have hrev : lastValueFor (r :: t) key
        = ((lastValueFor t key).orElse fun _ =>
            (if r.1 == key then some r.2 else none)) := by
      unfold lastValueFor
      rw [List.reverse_cons, find_append_or]
      cases hf : t.reverse.find? (fun p => p.1 == key) with
      | none => cases hrk : (r.1 == key) <;> simp [List.find?, hrk, Option.orElse]
      | some p => simp [Option.orElse]
    rw [hrev]
    cases hl : lastValueFor t key with
    | some v => rfl
    | none =>
      by_cases hrk : r.1 = key
      · rw [if_pos (beq_iff_eq.mpr hrk), ← hrk]
        simpa [Option.orElse] using dictLookup_insert_self d r.1 r.2
      · rw [if_neg (by simpa using hrk)]
        simpa [Option.orElse] using dictLookup_insert_ne d r.1 key r.2 (fun e => hrk e.symm)

/-- The dictionary built by update realizes the last-write-wins reduction. -/
theorem dictLookup_dictOfRows (rows : List (Int × String)) (key : Int) :
    dictLookup (dictOfRows rows) key = lastValueFor rows key := by
  unfold dictOfRows
  rw [dictLookup_foldl rows key []]
  cases lastValueFor rows key <;> rfl

/-- Replacing a value never changes the key column. -/
theorem keys_map_replace (d : List (Int × String)) (k : Int) (v : String) :
    (d.map (fun p => if p.1 == k then (k, v) else p)).map Prod.fst = d.map Prod.fst := by
  rw [List.map_map]
  apply List.map_congr_left
  intro p _
  by_cases hpk : p.1 = k
  · simp [Function.comp, hpk]
  · simp [Function.comp, hpk]

/-- dictInsert preserves distinctness of keys. -/
theorem dictInsert_keys_nodup (d : List (Int × String)) (k : Int) (v : String)
    (hd : (d.map Prod.fst).Nodup) :
    ((dictInsert d k v).map Prod.fst).Nodup := by
  unfold dictInsert
  by_cases hc : dictKeysContain d k
  · rw [if_pos hc, keys_map_replace]
    exact hd
  · rw [if_neg hc, List.map_append]
    rw [List.nodup_append]
    refine ⟨hd, List.nodup_singleton k, ?_⟩
    intro a ha hb
    have hak : a = k := by simpa using hb
    subst hak
    simp only [dictKeysContain, List.any_eq_true, beq_iff_eq, not_exists, not_and,
      Bool.not_eq_true] at hc
    rcases List.mem_map.mp ha with ⟨p, hp, hpa⟩
    have := hc p hp
    simp [hpa] at this

/-- The mapping built by update has pairwise-distinct identifiers. -/
theorem dictOfRows_keys_nodup (rows : List (Int × String)) :
    ((dictOfRows rows).map Prod.fst).Nodup := by
  unfold dictOfRows
  suffices hgen : ∀ d : List (Int × String), (d.map Prod.fst).Nodup →
      ((List.foldl (fun acc row => dictInsert acc row.1 row.2) d rows).map Prod.fst).Nodup by
    exact hgen [] (by simp)
  induction rows with
  | nil => intro d hd; exact hd
  | cons r t ih =>
    intro d hd
    rw [List.foldl_cons]
    exact ih _ (dictInsert_keys_nodup d r.1 r.2 hd)

/-- C5: a successful update stores a genuine mapping (distinct identifiers)
realizing the last-write-wins reduction of the returned rows, with
result_count_ids the number of mapping entries and
result_count_booking_codes the number of distinct code values; on the
scenario rows [(101,AB1), (150,AB1), (199,CD2)] this yields exactly that
mapping with counts 3 and 2. -/
theorem update_last_write_wins (h : QueryHandler) (now : String)
    (rows : List (Int × String)) :
    ∃ m, QueryHandler.update h now (Except.ok rows)
        = Except.ok
            { h with
              result := some m
              result_count_ids := some m.length
              result_count_booking_codes := some ((m.map Prod.snd).toFinset.card)
              updated_at := some now }
      ∧ (∀ key, dictLookup m key = lastValueFor rows key)
      ∧ (m.map Prod.fst).Nodup
      ∧ (QueryHandler.update tripsHandler100 "2024-01-01T10:00:00+00:00"
            (Except.ok [(101, "AB1"), (150, "AB1"), (199, "CD2")])).map
            (fun g => (g.result, g.result_count_ids, g.result_count_booking_codes))
          = Except.ok (some [(101, "AB1"), (150, "AB1"), (199, "CD2")], some 3, some 2) := by
  refine ⟨dictOfRows rows, ?_, fun key => dictLookup_dictOfRows rows key,
    dictOfRows_keys_nodup rows, rfl⟩
  rw [List.card_toFinset]
  rfl

/-- A freshly-constructed handler has both counts unset. -/
theorem init_counts_none (cat : String) (r : Int × Int) (h : QueryHandler)
    (hEq : QueryHandler.init cat r = Except.ok h) :
    h.result_count_ids = none ∧ h.result_count_booking_codes = none := by
  unfold QueryHandler.init at hEq
  cases hE : QueryHandler.get_engine cat with
  | error e => rw [hE] at hEq; exact Except.noConfusion hEq
  | ok eng =>
    rw [hE] at hEq
    cases hQ : QueryHandler.get_query cat r with
    | error e => rw [hQ] at hEq; exact Except.noConfusion hEq
    | ok q =>
      rw [hQ] at hEq
      have e1 := Except.ok.inj hEq
      subst e1
      exact ⟨rfl, rfl⟩

/-- C7: in every handler state reachable through the public API, whenever the
two counts are set, the distinct-code count does not exceed the identifier
count. -/
theorem counts_invariant_reachable (h : QueryHandler) (hre : Reaches h) :
    ∀ ci cc : Nat, h.result_count_ids = some ci →
      h.result_count_booking_codes = some cc → cc ≤ ci := by
  induction hre with
  | init cat r g hEq =>
    intro ci cc hci hcc
    rcases init_counts_none cat r g hEq with ⟨h1, -⟩
    rw [h1] at hci
    exact Option.noConfusion hci
  | set_cat g new g' hre hEq ih =>
    intro ci cc hci hcc
    unfold QueryHandler.set_query_category at hEq
    by_cases hmem : new ∉ QUERY_CATEGORIES
    · rw [if_pos hmem] at hEq
      exact Except.noConfusion hEq
    · rw [if_neg hmem] at hEq
      by_cases hdiff : g.query_category ≠ new
      · rw [if_pos hdiff] at hEq
        have e1 := Except.ok.inj hEq
        subst e1
        exact Option.noConfusion hci
      · rw [if_neg hdiff] at hEq
        have e1 := Except.ok.inj hEq
        subst e1
        exact ih ci cc hci hcc
  | set_range g new g' hre hEq ih =>
    intro ci cc hci hcc
    unfold QueryHandler.set_id_range at hEq
    by_cases hok : 0 < new.1 ∧ new.1 < new.2
    · rw [if_pos hok] at hEq
      have e1 := Except.ok.inj hEq
      subst e1
      exact Option.noConfusion hci
    · rw [if_neg hok] at hEq
      exact Except.noConfusion hEq
  | update g now rows g' hre hEq ih =>
    intro ci cc hci hcc
    unfold QueryHandler.update at hEq
    have e1 := Except.ok.inj hEq
    subst e1
    have h2 : ci = (dictOfRows rows).length := (Option.some.inj hci).symm
    have h1 : cc = ((dictOfRows rows).map Prod.snd).dedup.length := (Option.some.inj hcc).symm
    subst h1
    subst h2
    calc ((dictOfRows rows).map Prod.snd).dedup.length
        ≤ ((dictOfRows rows).map Prod.snd).length :=
          List.Sublist.length_le (List.dedup_sublist _)
      _ = (dictOfRows rows).length := List.length_map _ _

/-- Witness for C7: the populated handler is reached by constructing with
("mysql_trips", (100, 200)) and updating on the three scenario rows; its
counts are 3 and 2, and the invariant instance 2 <= 3 follows. -/
theorem counts_invariant_reachable_witness : (2 : Nat) ≤ 3 :=
  counts_invariant_reachable populatedHandler
    (Reaches.update tripsHandler100 "2024-01-01T10:00:00+00:00"
      [(101, "AB1"), (150, "AB1"), (199, "CD2")] populatedHandler
      (Reaches.init "mysql_trips" (100, 200) tripsHandler100 rfl)
      rfl)
    3 2 rfl rfl

end ReconcileBQData
